import Mathlib

/-!
Shallow embedding of the habit-progression / identity-evidence core of the
klarity-me backend, together with proofs of its specified properties.

Habit side (backend/app/api/api_v1/endpoints/habits.py and
backend/app/models/habit.py): habits live in an in-memory store per user;
daily check-ins update streak and completion counters; graduation moves a
habit from the "becoming" lane to the terminal "i_am" lane.

Identity side (backend/app/api/api_v1/endpoints/identity_evolution_supabase.py):
qualities carry a strength score updated by evidence events, and 7-day
challenges award XP per completed day.

Calendar dates are embedded as integers (days since an arbitrary epoch), so
that `yesterday = today - 1` matches the source's `date.today() - timedelta(days=1)`.
Timestamps (datetime.now()) are likewise integers supplied by the caller.
Python floats on the identity side are embedded as exact rationals.
-/

namespace Klarity

/-- Lane of a habit: the source enum HabitLane (models/habit.py). -/
inductive HabitLane
  | becoming
  | iAm
deriving DecidableEq, Repr

/-- Frequency specification of a habit, as validated by the pydantic model
FrequencyDetails (models/habit.py): the validator requires target_days to be
present (1..7) when the type is custom, so the validated data is embedded as
an inductive with the custom case carrying its target_days. -/
inductive FrequencySpec
  | daily
  | weekly
  | custom (targetDays : Nat)
deriving DecidableEq, Repr

/-- Habit.calculate_required_days (models/habit.py lines 78-91). -/
def calculate_required_days : FrequencySpec → Nat
  | .daily => 40
  | .weekly => 90
  | .custom targetDays =>
    if 5 ≤ targetDays then 50
    else if 3 ≤ targetDays then 60
    else 90

/-- The fields of HabitCreate (models/habit.py): user-supplied definition of
a new habit. -/
structure HabitCreate where
  title : String
  description : Option String
  frequency : FrequencySpec
  tinyHabitOption : Option String
deriving DecidableEq, Repr

/-- The fields of HabitUpdate (models/habit.py lines 47-51): the only fields
a PUT /habits/:id request may change. `none` models an unset field
(pydantic exclude_unset). -/
structure HabitUpdate where
  title : Option String
  description : Option String
  tinyHabitOption : Option String
deriving DecidableEq, Repr

/-- The stored Habit record (models/habit.py lines 60-76). Dates and
timestamps are integers; graduation_date and last_check_in start as none. -/
structure Habit where
  id : String
  userId : String
  title : String
  description : Option String
  frequency : FrequencySpec
  tinyHabitOption : Option String
  lane : HabitLane
  requiredDays : Nat
  currentDay : Nat
  missedDays : Nat
  graceDaysUsed : Nat
  longestStreak : Nat
  currentStreak : Nat
  totalCompletions : Nat
  startDate : Int
  graduationDate : Option Int
  lastCheckIn : Option Int
  createdAt : Int
  updatedAt : Int
deriving DecidableEq, Repr

/-- create_habit (endpoints/habits.py lines 50-83): a new habit starts in
the becoming lane with all counters zero; required_days is recomputed from
the frequency via calculate_required_days before the record is stored. -/
def create_habit (c : HabitCreate) (id userId : String) (now : Int) : Habit :=
  { id := id
    userId := userId
    title := c.title
    description := c.description
    frequency := c.frequency
    tinyHabitOption := c.tinyHabitOption
    lane := HabitLane.becoming
    requiredDays := calculate_required_days c.frequency
    currentDay := 0
    missedDays := 0
    graceDaysUsed := 0
    longestStreak := 0
    currentStreak := 0
    totalCompletions := 0
    startDate := now
    graduationDate := none
    lastCheckIn := none
    createdAt := now
    updatedAt := now }

/-- The runtime value sitting in a check-in's check_in_date slot, keeping
Python's type distinction: the endpoint stores the record via
checkin.dict(), which leaves check_in_date as a datetime.date object (the
json_encoders of the model apply to .json() only), while both scans in
create_check_in build isoformat strings to compare against. The integer is
the calendar day the value denotes. -/
inductive PyDateVal
  | dateObj (day : Int)
  | isoStr (day : Int)
deriving DecidableEq, Repr

/-- Python == on such values: a datetime.date and a str are never equal
(neither type's __eq__ accepts the other), and equality within one type is
equality of the denoted day. -/
def pyEq : PyDateVal → PyDateVal → Bool
  | .dateObj a, .dateObj b => a == b
  | .isoStr a, .isoStr b => a == b
  | _, _ => false

/-- A stored DailyCheckIn record (models/habit.py lines 122-127), as it sits
in memory_db: check_in_date is the date object produced at creation. -/
structure CheckIn where
  habitId : String
  checkInDate : PyDateVal
  completed : Bool
  tinyHabitUsed : Bool
  note : Option String
deriving DecidableEq, Repr

/-- The slice of memory_db relevant to one habit: the habit record plus the
user's check-in list (checkins_<user_id>), which the endpoints filter by
habit_id. -/
structure HabitState where
  habit : Habit
  checkins : List CheckIn
deriving DecidableEq, Repr

/-- Error kinds raised by the habit endpoints (HTTP 400/404 details). -/
inductive HabitError
  | notFound
  | duplicateCheckIn
  | alreadyGraduated
  | insufficientProgress
deriving DecidableEq, Repr

/-- The scan for a completed check-in dated yesterday for this habit
(endpoints/habits.py lines 208-212): the source computes
yesterday_missed = not any(ci.habit_id == id and ci.check_in_date == yesterday
and ci.completed), where yesterday is the isoformat STRING
(date.today() - timedelta(days=1)).isoformat() and the stored
ci.check_in_date is a date object — so the comparison is the cross-type
pyEq and never succeeds on stored records. -/
def hasCompletedYesterday (st : HabitState) (today : Int) : Bool :=
  st.checkins.any fun ci =>
    ci.habitId == st.habit.id && pyEq ci.checkInDate (.isoStr (today - 1)) && ci.completed

/-- create_check_in (endpoints/habits.py lines 152-226), for a habit present
in the store. The duplicate guard (lines 180-184) compares each stored
check_in_date — a date object — against today = date.today().isoformat(),
a string, so on records this endpoint stored it never fires; the new
check-in is created with check_in_date = date.today(), the date object
(line 193). On completed = true it bumps total_completions, current_streak,
current_day and refreshes longest_streak; on completed = false it bumps
missed_days and consults the yesterday scan (which likewise never matches
stored records, so the streak resets). The new check-in is appended after
the habit counters are updated, exactly as in the source. -/
def create_check_in (st : HabitState) (today : Int) (completed tinyHabitUsed : Bool)
    (note : Option String) : Except HabitError (CheckIn × HabitState) :=
  if st.checkins.any fun ci => ci.habitId == st.habit.id && pyEq ci.checkInDate (.isoStr today) then
    .error .duplicateCheckIn
  else
    let ci : CheckIn :=
      { habitId := st.habit.id
        checkInDate := PyDateVal.dateObj today
        completed := completed
        tinyHabitUsed := tinyHabitUsed
        note := note }
    let h := st.habit
    let h1 :=
      if completed then
        let hc := { h with totalCompletions := h.totalCompletions + 1
                           currentStreak := h.currentStreak + 1
                           currentDay := h.currentDay + 1 }
        if hc.longestStreak < hc.currentStreak then
          { hc with longestStreak := hc.currentStreak }
        else hc
      else
        let hm := { h with missedDays := h.missedDays + 1 }
        if hasCompletedYesterday st today then hm
        else { hm with currentStreak := 0 }
    let h2 := { h1 with lastCheckIn := some today, updatedAt := today }
    .ok (ci, { habit := h2, checkins := st.checkins ++ [ci] })

/-- update_habit (endpoints/habits.py lines 104-130): only the HabitUpdate
fields (title, description, tiny_habit_option) are written, plus updated_at. -/
def update_habit (h : Habit) (u : HabitUpdate) (now : Int) : Habit :=
  let h1 := match u.title with
    | some t => { h with title := t }
    | none => h
  let h2 := match u.description with
    | some d => { h1 with description := d }
    | none => h1
  let h3 := match u.tinyHabitOption with
    | some t => { h2 with tinyHabitOption := t }
    | none => h2
  { h3 with updatedAt := now }

/-- The consistency ratio used by auto graduation
(endpoints/habits.py line 263): total_completions / max(current_day, 1). -/
def consistencyOf (h : Habit) : ℚ :=
  (h.totalCompletions : ℚ) / ((max h.currentDay 1 : Nat) : ℚ)

/-- graduate_habit (endpoints/habits.py lines 229-281), for a habit present
in the store: rejects an already graduated habit; manual graduation needs
current_day >= 21; auto graduation needs current_day >= required_days and
consistency >= 0.8; on success the lane becomes i_am and graduation_date is
set. -/
def graduate_habit (st : HabitState) (manual : Bool) (now : Int) :
    Except HabitError HabitState :=
  if st.habit.lane = HabitLane.iAm then
    .error .alreadyGraduated
  else if manual = true ∧ st.habit.currentDay < 21 then
    .error .insufficientProgress
  else if manual = false ∧ st.habit.currentDay < st.habit.requiredDays then
    .error .insufficientProgress
  else if manual = false ∧ consistencyOf st.habit < (0.8 : ℚ) then
    .error .insufficientProgress
  else
    .ok { st with habit := { st.habit with
            lane := HabitLane.iAm
            graduationDate := some now
            updatedAt := now } }

/-- One API operation on a habit after its creation. -/
inductive HOp
  | checkIn (today : Int) (completed tinyHabitUsed : Bool) (note : Option String)
  | update (u : HabitUpdate) (now : Int)
  | graduate (manual : Bool) (now : Int)
deriving DecidableEq, Repr

/-- Run one operation against the store. A raised error (HTTP 4xx) leaves
the store unchanged, since every endpoint raises before writing. -/
def runOp (st : HabitState) : HOp → HabitState
  | .checkIn today completed tiny note =>
    match create_check_in st today completed tiny note with
    | .ok r => r.2
    | .error _ => st
  | .update u now => { st with habit := update_habit st.habit u now }
  | .graduate manual now =>
    match graduate_habit st manual now with
    | .ok st2 => st2
    | .error _ => st

/-- Run a sequence of operations. -/
def runOps (st : HabitState) (ops : List HOp) : HabitState :=
  ops.foldl runOp st

/-- The state right after create_habit: the fresh habit and the user's
check-in list (empty for a new user; kept general where needed). -/
def freshState (c : HabitCreate) (id userId : String) (now : Int) : HabitState :=
  { habit := create_habit c id userId now, checkins := [] }

/-- Check-in arguments, used to describe sequences consisting only of
check-in calls. -/
def checkInOps (l : List (Int × Bool)) : List HOp :=
  l.map fun a => HOp.checkIn a.1 a.2 false none

/-! Identity side: qualities, evidence, challenges
(endpoints/identity_evolution_supabase.py, dev-store paths). -/

/-- A stored identity quality (the dev-store record created at
identity_evolution_supabase.py lines 92-102). Strength is an exact rational
standing for the Python float. -/
structure Quality where
  id : Nat
  userId : String
  qualityName : String
  category : String
  strength : ℚ
  evidenceCount : Nat
  lastEvidence : Option Int
  growthRate : ℚ
deriving DecidableEq, Repr

/-- create_quality dev path (identity_evolution_supabase.py lines 92-104):
a fresh quality has strength 0 and no evidence. -/
def create_quality (id : Nat) (userId qualityName category : String) : Quality :=
  { id := id
    userId := userId
    qualityName := qualityName
    category := category
    strength := 0
    evidenceCount := 0
    lastEvidence := none
    growthRate := 0 }

/-- The fields of QualityUpdate (identity_evolution_supabase.py lines 29-31). -/
structure QualityUpdate where
  strength : Option ℚ
  category : Option String
deriving DecidableEq, Repr

/-- update_quality dev path (identity_evolution_supabase.py lines 150-159),
for the quality found in the dev store: a provided strength is stored as
min(100, max(0, strength)) and growth_rate mocked to 5; a provided category
is stored; last_evidence is always refreshed. -/
def update_quality (q : Quality) (u : QualityUpdate) (now : Int) : Quality :=
  let q1 := match u.strength with
    | some s => { q with strength := min (100 : ℚ) (max (0 : ℚ) s), growthRate := 5 }
    | none => q
  let q2 := match u.category with
    | some c => { q1 with category := c }
    | none => q1
  { q2 with lastEvidence := some now }

/-- The fields of EvidenceCreate (identity_evolution_supabase.py lines 34-42)
that the dev-store path persists. -/
structure EvidenceCreate where
  qualityId : Nat
  evidenceType : String
  action : String
  description : Option String
  impactScore : ℚ
deriving DecidableEq, Repr

/-- A stored evidence record (identity_evolution_supabase.py lines 201-210). -/
structure Evidence where
  id : Nat
  userId : String
  qualityId : Nat
  evidenceType : String
  action : String
  description : Option String
  impactScore : ℚ
  createdAt : Int
deriving DecidableEq, Repr

/-- record_evidence dev path (identity_evolution_supabase.py lines 189-223),
for the quality found in the dev store (a missing quality is a 404 and
mutates nothing): appends an immutable evidence record and updates the
quality with strength := min(100, strength + impact_score * 2.0),
evidence_count + 1, and a fresh last_evidence. Note the source clamps only
from above here. -/
def record_evidence (q : Quality) (e : EvidenceCreate) (newId : Nat) (now : Int) :
    Evidence × Quality :=
  let ev : Evidence :=
    { id := newId
      userId := q.userId
      qualityId := e.qualityId
      evidenceType := e.evidenceType
      action := e.action
      description := e.description
      impactScore := e.impactScore
      createdAt := now }
  let strengthIncrease : ℚ := e.impactScore * (2.0 : ℚ)
  (ev, { q with
          strength := min (100 : ℚ) (q.strength + strengthIncrease)
          evidenceCount := q.evidenceCount + 1
          lastEvidence := some now
          growthRate := 5 })

/-- A stored identity challenge, status as the literal string the source
compares against. -/
structure Challenge where
  id : Nat
  userId : String
  qualityTargetId : Nat
  title : String
  description : Option String
  difficulty : String
  status : String
  completedDays : List Int
  currentDay : Int
  xpEarned : Int
  completedAt : Option Int
deriving DecidableEq, Repr

/-- A milestone row as inserted by the challenge-completion branch
(identity_evolution_supabase.py lines 473-481). -/
structure Milestone where
  userId : String
  qualityId : Nat
  title : String
  description : String
  milestoneType : String
  challengeId : Nat
  xpReward : Int
deriving DecidableEq, Repr

/-- Error kinds raised by complete_challenge_day. -/
inductive ChallengeError
  | challengeNotFound
  | notActive
  | dayAlreadyCompleted
deriving DecidableEq, Repr

/-- complete_challenge_day (identity_evolution_supabase.py lines 431-487)
for the fetched challenge: rejects a non-active challenge and an already
completed day; otherwise appends the day, awards
int(10 * (1 + 0.1 * len(completed_days))) XP (the Python int() of this
always-positive float is its floor), and when completed_days reaches 7
entries marks the challenge completed, adds the 100 XP bonus and inserts
exactly one milestone row. Returns the updated challenge, the milestone
rows inserted by the call, and the xp_reward value from the response. -/
def complete_challenge_day (ch : Challenge) (day : Int) (now : Int) :
    Except ChallengeError (Challenge × List Milestone × ℚ) :=
  if ch.status ≠ "active" then
    .error .notActive
  else if day ∈ ch.completedDays then
    .error .dayAlreadyCompleted
  else
    let completedDays := ch.completedDays ++ [day]
    let xpReward : ℚ := 10 * (1 + (0.1 : ℚ) * (completedDays.length : ℚ))
    let newXp : Int := ch.xpEarned + ⌊xpReward⌋
    if 7 ≤ completedDays.length then
      let ch2 := { ch with
        completedDays := completedDays
        currentDay := day
        xpEarned := newXp + 100
        status := "completed"
        completedAt := some now }
      let m : Milestone :=
        { userId := ch.userId
          qualityId := ch.qualityTargetId
          title := "Completed " ++ ch.title
          description := "Successfully completed a 7-day " ++ ch.difficulty ++ " challenge"
          milestoneType := "challenge_complete"
          challengeId := ch.id
          xpReward := 100 }
      .ok (ch2, [m], xpReward)
    else
      .ok ({ ch with
              completedDays := completedDays
              currentDay := day
              xpEarned := newXp }, [], xpReward)

/-! Helper lemmas about the habit operations. -/

/-- Python equality of a stored date object against an isoformat string is
always False, whatever days they denote. -/
theorem pyEq_dateObj_isoStr (a b : Int) :
    pyEq (PyDateVal.dateObj a) (PyDateVal.isoStr b) = false := rfl

/-- A store entry satisfying the duplicate scan forces the duplicate branch
of create_check_in (possible only for stores the endpoint did not build,
since it stores date objects and scans with strings). -/
theorem create_check_in_dup (st : HabitState) (today : Int) (completed tiny : Bool)
    (note : Option String)
    (h : (st.checkins.any fun ci =>
        ci.habitId == st.habit.id && pyEq ci.checkInDate (.isoStr today)) = true) :
    create_check_in st today completed tiny note = .error .duplicateCheckIn := by
  simp [create_check_in, h]

/-- Explicit result of an accepted completed check-in. -/
theorem create_check_in_completed (st : HabitState) (today : Int) (tiny : Bool)
    (note : Option String)
    (h : (st.checkins.any fun ci =>
        ci.habitId == st.habit.id && pyEq ci.checkInDate (.isoStr today)) = false) :
    create_check_in st today true tiny note =
      .ok (⟨st.habit.id, .dateObj today, true, tiny, note⟩,
        { habit := { st.habit with
            totalCompletions := st.habit.totalCompletions + 1
            currentStreak := st.habit.currentStreak + 1
            currentDay := st.habit.currentDay + 1
            longestStreak := max st.habit.longestStreak (st.habit.currentStreak + 1)
            lastCheckIn := some today
            updatedAt := today }
          checkins := st.checkins ++ [⟨st.habit.id, .dateObj today, true, tiny, note⟩] }) := by
  by_cases hlt : st.habit.longestStreak < st.habit.currentStreak + 1
  · rw [max_eq_right (Nat.le_of_lt hlt)]
    simp [create_check_in, h, hlt]
  · rw [max_eq_left (Nat.le_of_not_lt hlt)]
    simp [create_check_in, h, hlt]

/-- Explicit result of an accepted missed check-in: missed_days goes up and
the yesterday scan decides the streak (on stored records it never matches,
so the streak resets). -/
theorem create_check_in_missed (st : HabitState) (today : Int) (tiny : Bool)
    (note : Option String)
    (h : (st.checkins.any fun ci =>
        ci.habitId == st.habit.id && pyEq ci.checkInDate (.isoStr today)) = false) :
    create_check_in st today false tiny note =
      .ok (⟨st.habit.id, .dateObj today, false, tiny, note⟩,
        { habit := { st.habit with
            missedDays := st.habit.missedDays + 1
            currentStreak := if hasCompletedYesterday st today then st.habit.currentStreak else 0
            lastCheckIn := some today
            updatedAt := today }
          checkins := st.checkins ++ [⟨st.habit.id, .dateObj today, false, tiny, note⟩] }) := by
  by_cases hy : hasCompletedYesterday st today = true
  · simp [create_check_in, h, hy]
  · rw [Bool.not_eq_true] at hy
    simp [create_check_in, h, hy]

/-- An accepted check-in appends exactly the new record and leaves the
identification and graduation fields of the habit untouched. -/
theorem create_check_in_ok_shape (st : HabitState) (today : Int) (completed tiny : Bool)
    (note : Option String) (ci : CheckIn) (st2 : HabitState)
    (h : create_check_in st today completed tiny note = .ok (ci, st2)) :
    ci = ⟨st.habit.id, .dateObj today, completed, tiny, note⟩
  ∧ st2.checkins = st.checkins ++ [ci]
  ∧ st2.habit.id = st.habit.id
  ∧ st2.habit.lane = st.habit.lane
  ∧ st2.habit.requiredDays = st.habit.requiredDays
  ∧ st2.habit.graduationDate = st.habit.graduationDate := by
  cases hdup : (st.checkins.any fun x =>
      x.habitId == st.habit.id && pyEq x.checkInDate (.isoStr today)) with
  | true =>
    rw [create_check_in_dup st today completed tiny note hdup] at h
    exact absurd h (by simp)
  | false =>
    cases completed with
    | true =>
      rw [create_check_in_completed st today tiny note hdup] at h
      simp only [Except.ok.injEq, Prod.mk.injEq] at h
      obtain ⟨rfl, rfl⟩ := h
      simp
    | false =>
      rw [create_check_in_missed st today tiny note hdup] at h
      simp only [Except.ok.injEq, Prod.mk.injEq] at h
      obtain ⟨rfl, rfl⟩ := h
      simp

/-- update_habit writes only title, description, tiny_habit_option and
updated_at; every other field is untouched. -/
theorem update_habit_fields (h : Habit) (u : HabitUpdate) (now : Int) :
    (update_habit h u now).lane = h.lane
  ∧ (update_habit h u now).requiredDays = h.requiredDays
  ∧ (update_habit h u now).currentDay = h.currentDay
  ∧ (update_habit h u now).missedDays = h.missedDays
  ∧ (update_habit h u now).currentStreak = h.currentStreak
  ∧ (update_habit h u now).longestStreak = h.longestStreak
  ∧ (update_habit h u now).totalCompletions = h.totalCompletions
  ∧ (update_habit h u now).graduationDate = h.graduationDate
  ∧ (update_habit h u now).id = h.id := by
  obtain ⟨t, d, ty⟩ := u
  cases t <;> cases d <;> cases ty <;> simp [update_habit]

/-- A successful graduation writes exactly the lane, graduation_date and
updated_at fields, and only happens off the i_am lane. -/
theorem graduate_habit_ok_state (st : HabitState) (manual : Bool) (now : Int) (st2 : HabitState)
    (h : graduate_habit st manual now = .ok st2) :
    st.habit.lane ≠ HabitLane.iAm
  ∧ st2 = { st with habit := { st.habit with
              lane := HabitLane.iAm
              graduationDate := some now
              updatedAt := now } } := by
  unfold graduate_habit at h
  split_ifs at h with h1 h2 h3 h4
  simp only [Except.ok.injEq] at h
  exact ⟨h1, h.symm⟩

/-! Claim theorems. -/

/-- Fixture for witnesses: a fresh daily habit for one user. -/
def habitCreateW : HabitCreate :=
  { title := "meditate", description := none, frequency := .daily, tinyHabitOption := none }

/-- Fixture for witnesses: the store right after creating the fixture habit. -/
def stW : HabitState := freshState habitCreateW "h1" "u1" 0

/-- Fixture for C1: the store after a completed check-in on day 2. -/
def c1Day2 : HabitState := runOp stW (HOp.checkIn 2 true false none)

/-- Fixture for C1: the day-2 store after a missed check-in on day 3. -/
def c1Day3 : HabitState := runOp c1Day2 (HOp.checkIn 3 false false none)

/-- Claim C1 evaluated at the failing input: a completed check-in for this
habit dated yesterday (day 2, stored as a date object) exists and the
current streak is 1, yet the missed check-in of day 3 resets current_streak
to 0 instead of preserving it — the yesterday scan compares the stored date
object against an isoformat string and never matches, so the
streak-preservation branch of the grace rule is dead. The claim's remaining
conjuncts (missed_days + 1, total_completions and current_day unchanged) do
hold at this input. -/
theorem C1_streak_reset_bug :
    (∃ ci ∈ c1Day2.checkins, ci.habitId = c1Day2.habit.id
        ∧ ci.checkInDate = PyDateVal.dateObj 2 ∧ ci.completed = true)
  ∧ c1Day2.habit.currentStreak = 1
  ∧ c1Day3.habit.missedDays = c1Day2.habit.missedDays + 1
  ∧ c1Day3.habit.totalCompletions = c1Day2.habit.totalCompletions
  ∧ c1Day3.habit.currentDay = c1Day2.habit.currentDay
  ∧ c1Day3.habit.currentStreak = 0
  ∧ ¬ (c1Day3.habit.currentStreak = c1Day2.habit.currentStreak) := by decide

/-- Fixture for C5: the store after a completed check-in on day 3. -/
def stW2 : HabitState := runOp stW (HOp.checkIn 3 true false none)

/-- Fixture for C5: the same check-in call submitted a second time. -/
def stW3 : HabitState := runOp stW2 (HOp.checkIn 3 true false none)

/-- Claim C5 evaluated at the failing input: a second check-in call for
the same habit and day is not rejected — the duplicate guard compares the
stored date object against an isoformat string and never fires — so the
call succeeds, a second record with the same habit and date is stored, and
every counter is double-bumped instead of equalling its value after the
first check-in alone. -/
theorem C5_duplicate_accepted :
    (∀ e : HabitError, ¬ create_check_in stW2 3 true false none = Except.error e)
  ∧ stW2.habit.totalCompletions = 1
  ∧ stW2.habit.currentDay = 1
  ∧ stW2.habit.currentStreak = 1
  ∧ stW3.habit.totalCompletions = 2
  ∧ stW3.habit.currentDay = 2
  ∧ stW3.habit.currentStreak = 2
  ∧ stW3.checkins.length = 2
  ∧ (∀ ci ∈ stW3.checkins, ci.habitId = "h1" ∧ ci.checkInDate = PyDateVal.dateObj 3) := by
  refine ⟨?_, by decide, by decide, by decide, by decide, by decide, by decide,
    by decide, by decide⟩
  intro e hx
  have heq : create_check_in stW2 3 true false none =
      Except.ok (⟨"h1", PyDateVal.dateObj 3, true, false, none⟩, stW3) := rfl
  rw [heq] at hx
  cases hx

/-- Claim C10: required_days is the stated pure function of the frequency —
daily 40, weekly 90, custom 50 / 60 / 90 by target_days bracket — is set that
way by create_habit, and is never changed by any later operation. -/
theorem C10_required_days (td : Nat) (c : HabitCreate) (id userId : String)
    (now : Int) (st : HabitState) (op : HOp) :
    calculate_required_days .daily = 40
  ∧ calculate_required_days .weekly = 90
  ∧ (5 ≤ td → calculate_required_days (.custom td) = 50)
  ∧ (3 ≤ td → td ≤ 4 → calculate_required_days (.custom td) = 60)
  ∧ (1 ≤ td → td ≤ 2 → calculate_required_days (.custom td) = 90)
  ∧ (create_habit c id userId now).requiredDays = calculate_required_days c.frequency
  ∧ (runOp st op).habit.requiredDays = st.habit.requiredDays := by
  refine ⟨rfl, rfl, ?_, ?_, ?_, rfl, ?_⟩
  · intro h5
    simp [calculate_required_days, h5]
  · intro h3 h4
    have : ¬ 5 ≤ td := by omega
    simp [calculate_required_days, this, h3]
  · intro h1 h2
    have hn5 : ¬ 5 ≤ td := by omega
    have hn3 : ¬ 3 ≤ td := by omega
    simp [calculate_required_days, hn5, hn3]
  · cases op with
    | checkIn today completed tiny note =>
      cases h : create_check_in st today completed tiny note with
      | ok r =>
        obtain ⟨_, _, _, _, hreq, _⟩ :=
          create_check_in_ok_shape st today completed tiny note r.1 r.2 h
        simpa [runOp, h] using hreq
      | error e => simp [runOp, h]
    | update u now2 =>
      simpa [runOp] using (update_habit_fields st.habit u now2).2.1
    | graduate manual now2 =>
      cases h : graduate_habit st manual now2 with
      | ok stg =>
        obtain ⟨_, rfl⟩ := graduate_habit_ok_state st manual now2 stg h
        simp [runOp, h]
      | error e => simp [runOp, h]

/-- Witness for C10 at concrete target_days values and a concrete habit. -/
theorem C10_required_days_witness :
    calculate_required_days .daily = 40
  ∧ calculate_required_days .weekly = 90
  ∧ calculate_required_days (.custom 5) = 50
  ∧ calculate_required_days (.custom 3) = 60
  ∧ calculate_required_days (.custom 2) = 90
  ∧ (create_habit habitCreateW "h1" "u1" 0).requiredDays
      = calculate_required_days habitCreateW.frequency
  ∧ (runOp stW (HOp.graduate true 9)).habit.requiredDays = stW.habit.requiredDays := by
  obtain ⟨a, b, c, d, e, f, g⟩ :=
    C10_required_days 5 habitCreateW "h1" "u1" 0 stW (HOp.graduate true 9)
  refine ⟨a, b, c (by decide), ?_, ?_, f, g⟩
  · exact (C10_required_days 3 habitCreateW "h1" "u1" 0 stW (HOp.graduate true 9)).2.2.2.1
      (by decide) (by decide)
  · exact (C10_required_days 2 habitCreateW "h1" "u1" 0 stW (HOp.graduate true 9)).2.2.2.2.1
      (by decide) (by decide)

/-- Claim C6: for a not-yet-graduated habit, manual graduation succeeds
exactly when current_day >= 21 and otherwise fails with the
insufficient-progress error leaving the store unchanged; automatic
graduation succeeds exactly when current_day >= required_days and the
consistency ratio is at least 0.8, and otherwise fails the same way. -/
theorem C6_graduation_gate (st : HabitState) (now : Int)
    (hb : st.habit.lane = HabitLane.becoming) :
    ((∃ st2, graduate_habit st true now = .ok st2) ↔ 21 ≤ st.habit.currentDay)
  ∧ (st.habit.currentDay < 21 →
      graduate_habit st true now = .error .insufficientProgress
    ∧ runOp st (HOp.graduate true now) = st)
  ∧ ((∃ st2, graduate_habit st false now = .ok st2) ↔
      (st.habit.requiredDays ≤ st.habit.currentDay
        ∧ (0.8 : ℚ) ≤ consistencyOf st.habit))
  ∧ (¬ (st.habit.requiredDays ≤ st.habit.currentDay
        ∧ (0.8 : ℚ) ≤ consistencyOf st.habit) →
      graduate_habit st false now = .error .insufficientProgress
    ∧ runOp st (HOp.graduate false now) = st) := by
  have hnot : ¬ st.habit.lane = HabitLane.iAm := by rw [hb]; intro hx; cases hx
  have hokman : 21 ≤ st.habit.currentDay →
      graduate_habit st true now = .ok { st with habit := { st.habit with
        lane := HabitLane.iAm, graduationDate := some now, updatedAt := now } } := by
    intro h21
    have hx : ¬ st.habit.currentDay < 21 := by omega
    simp [graduate_habit, hnot, hx]
  have herrman : st.habit.currentDay < 21 →
      graduate_habit st true now = .error .insufficientProgress := by
    intro hlt
    simp [graduate_habit, hnot, hlt]
  have hokauto : st.habit.requiredDays ≤ st.habit.currentDay →
      (0.8 : ℚ) ≤ consistencyOf st.habit →
      graduate_habit st false now = .ok { st with habit := { st.habit with
        lane := HabitLane.iAm, graduationDate := some now, updatedAt := now } } := by
    intro hd hc
    simp [graduate_habit, hnot, not_lt.mpr hd, not_lt.mpr hc]
  have herrauto : ¬ (st.habit.requiredDays ≤ st.habit.currentDay
        ∧ (0.8 : ℚ) ≤ consistencyOf st.habit) →
      graduate_habit st false now = .error .insufficientProgress := by
    intro hno
    by_cases hd : st.habit.currentDay < st.habit.requiredDays
    · simp [graduate_habit, hnot, hd]
    · have hc : consistencyOf st.habit < (0.8 : ℚ) := by
        by_contra hc2
        exact hno ⟨by omega, le_of_not_lt hc2⟩
      simp [graduate_habit, hnot, hd, hc]
  refine ⟨?_, ?_, ?_, ?_⟩
  · constructor
    · rintro ⟨st2, h⟩
      by_contra hlt
      rw [herrman (by omega)] at h
      cases h
    · intro h21
      exact ⟨_, hokman h21⟩
  · intro hlt
    exact ⟨herrman hlt, by simp [runOp, herrman hlt]⟩
  · constructor
    · rintro ⟨st2, h⟩
      by_contra hno
      rw [herrauto hno] at h
      cases h
    · rintro ⟨hd, hc⟩
      exact ⟨_, hokauto hd hc⟩
  · intro hno
    exact ⟨herrauto hno, by simp [runOp, herrauto hno]⟩

/-- Witness for C6 at a concrete ungraduated habit with zero progress. -/
theorem C6_graduation_gate_witness :
    graduate_habit stW true 5 = .error .insufficientProgress
  ∧ runOp stW (HOp.graduate true 5) = stW
  ∧ graduate_habit stW false 5 = .error .insufficientProgress
  ∧ runOp stW (HOp.graduate false 5) = stW := by
  obtain ⟨_, hman, _, hauto⟩ := C6_graduation_gate stW 5 (by rfl)
  obtain ⟨a, b⟩ := hman (by decide)
  obtain ⟨c, d⟩ := hauto (by
    intro hx
    exact absurd hx.1 (by decide))
  exact ⟨a, b, c, d⟩

/-- Claim C3 counterexample: record_evidence on a fresh quality (strength 0)
with impact_score = -1 stores strength -2, violating both the claimed
lower clamp and the claimed invariant 0 <= strength. -/
theorem C3_counterexample :
    (record_evidence (create_quality 1 "u1" "focused" "character")
        ⟨1, "task_completion", "acted", none, -1⟩ 2 0).2.strength = -2
  ∧ ¬ (0 ≤ (record_evidence (create_quality 1 "u1" "focused" "character")
        ⟨1, "task_completion", "acted", none, -1⟩ 2 0).2.strength) := by
  constructor
  · norm_num [record_evidence, create_quality]
  · norm_num [record_evidence, create_quality]

/-- Claim C3 as amended: update_quality clamps any provided strength into
[0,100]; record_evidence stores min(100, old_strength + impact_score * 2.0)
— clamped from above only — which stays in [0,100] whenever the old strength
is in range and impact_score is nonnegative, but can leave strength below 0
for a negative impact_score. -/
theorem C3_strength_clamping (q : Quality) (u : QualityUpdate) (s : ℚ)
    (e : EvidenceCreate) (newId : Nat) (now now2 : Int) :
    (u.strength = some s →
        (update_quality q u now).strength = min 100 (max 0 s)
      ∧ 0 ≤ (update_quality q u now).strength
      ∧ (update_quality q u now).strength ≤ 100)
  ∧ (record_evidence q e newId now2).2.strength
      = min 100 (q.strength + e.impactScore * 2)
  ∧ (0 ≤ q.strength → 0 ≤ e.impactScore →
        0 ≤ (record_evidence q e newId now2).2.strength
      ∧ (record_evidence q e newId now2).2.strength ≤ 100) := by
  refine ⟨?_, ?_, ?_⟩
  · intro hs
    have heq : (update_quality q u now).strength = min 100 (max 0 s) := by
      unfold update_quality
      rw [hs]
      cases u.category <;> simp
    refine ⟨heq, ?_, ?_⟩
    · rw [heq]
      exact le_min (by norm_num) (le_max_left 0 s)
    · rw [heq]
      exact min_le_left 100 (max 0 s)
  · norm_num [record_evidence]
  · intro hq he
    constructor
    · refine le_min (by norm_num) ?_
      norm_num [record_evidence]
      positivity
    · norm_num [record_evidence]

/-- Witness for C3 as amended: the spec scenario strength 95 with a strength
update request of 150 and an evidence event of impact 10. -/
theorem C3_strength_clamping_witness :
    ((update_quality { create_quality 1 "u1" "focused" "character" with strength := 95 }
        ⟨some 150, none⟩ 0).strength = min 100 (max 0 150)
      ∧ 0 ≤ (update_quality { create_quality 1 "u1" "focused" "character" with strength := 95 }
        ⟨some 150, none⟩ 0).strength
      ∧ (update_quality { create_quality 1 "u1" "focused" "character" with strength := 95 }
        ⟨some 150, none⟩ 0).strength ≤ 100)
  ∧ (0 ≤ (record_evidence { create_quality 1 "u1" "focused" "character" with strength := 95 }
        ⟨1, "task_completion", "acted", none, 10⟩ 2 0).2.strength
      ∧ (record_evidence { create_quality 1 "u1" "focused" "character" with strength := 95 }
        ⟨1, "task_completion", "acted", none, 10⟩ 2 0).2.strength ≤ 100) := by
  obtain ⟨h1, _, h3⟩ := C3_strength_clamping
    { create_quality 1 "u1" "focused" "character" with strength := 95 }
    ⟨some 150, none⟩ 150 ⟨1, "task_completion", "acted", none, 10⟩ 2 0 0
  exact ⟨h1 rfl, h3 (by norm_num) (by norm_num)⟩

/-- Claim C2: for a fresh habit checked in completed on day 1, missed on
day 2 and completed on day 3 (three consecutive calendar days), the day-3
state has current_streak == 1 and missed_days == 1. In the code this comes
about because the day-2 miss resets the streak (the yesterday scan never
matches the stored date objects) and the day-3 completion starts a fresh
streak of 1. -/
theorem C2_three_day_scenario (c : HabitCreate) (id userId : String) (t0 d : Int) :
    (runOps (freshState c id userId t0)
      (checkInOps [(d, true), (d + 1, false), (d + 2, true)])).habit.currentStreak = 1
  ∧ (runOps (freshState c id userId t0)
      (checkInOps [(d, true), (d + 1, false), (d + 2, true)])).habit.missedDays = 1 := by
  constructor <;>
    simp [runOps, checkInOps, runOp, create_check_in, hasCompletedYesterday,
      freshState, create_habit, pyEq]

/-- Any single operation preserves current_streak <= longest_streak. -/
theorem runOp_streak_le (st : HabitState) (op : HOp)
    (h : st.habit.currentStreak ≤ st.habit.longestStreak) :
    (runOp st op).habit.currentStreak ≤ (runOp st op).habit.longestStreak := by
  cases op with
  | checkIn today completed tiny note =>
    cases hdup : (st.checkins.any fun x =>
        x.habitId == st.habit.id && pyEq x.checkInDate (.isoStr today)) with
    | true =>
      simp [runOp, create_check_in_dup st today completed tiny note hdup, h]
    | false =>
      cases completed with
      | true =>
        simp [runOp, create_check_in_completed st today tiny note hdup]
      | false =>
        simp only [runOp, create_check_in_missed st today tiny note hdup]
        by_cases hy : hasCompletedYesterday st today = true
        · simpa [hy] using h
        · rw [Bool.not_eq_true] at hy
          simp [hy]
  | update u now =>
    obtain ⟨_, _, _, _, hcs, hls, _, _, _⟩ := update_habit_fields st.habit u now
    simpa [runOp, hcs, hls] using h
  | graduate manual now =>
    cases hg : graduate_habit st manual now with
    | ok st2 =>
      obtain ⟨_, rfl⟩ := graduate_habit_ok_state st manual now st2 hg
      simpa [runOp, hg] using h
    | error e =>
      simpa [runOp, hg] using h

/-- The streak bound is preserved along any operation sequence. -/
theorem runOps_streak_le (ops : List HOp) (st : HabitState)
    (h : st.habit.currentStreak ≤ st.habit.longestStreak) :
    (runOps st ops).habit.currentStreak ≤ (runOps st ops).habit.longestStreak := by
  induction ops generalizing st with
  | nil => exact h
  | cons op rest ih => exact ih (runOp st op) (runOp_streak_le st op h)

/-- Claim C8: starting from a freshly created habit, after any sequence of
check-in calls (completed or missed, in any order, duplicates rejected),
current_streak <= longest_streak holds. -/
theorem C8_streak_le_longest (c : HabitCreate) (id userId : String) (t0 : Int)
    (l : List (Int × Bool)) :
    (runOps (freshState c id userId t0) (checkInOps l)).habit.currentStreak ≤
    (runOps (freshState c id userId t0) (checkInOps l)).habit.longestStreak :=
  runOps_streak_le (checkInOps l) (freshState c id userId t0) (Nat.le_refl 0)

/-- A single operation never changes required_days. -/
theorem runOp_requiredDays_eq (st : HabitState) (op : HOp) :
    (runOp st op).habit.requiredDays = st.habit.requiredDays := by
  cases op with
  | checkIn today completed tiny note =>
    cases h : create_check_in st today completed tiny note with
    | ok r =>
      obtain ⟨_, _, _, _, hreq, _⟩ :=
        create_check_in_ok_shape st today completed tiny note r.1 r.2 h
      simpa [runOp, h] using hreq
    | error e => simp [runOp, h]
  | update u now =>
    simpa [runOp] using (update_habit_fields st.habit u now).2.1
  | graduate manual now =>
    cases h : graduate_habit st manual now with
    | ok stg =>
      obtain ⟨_, rfl⟩ := graduate_habit_ok_state st manual now stg h
      simp [runOp, h]
    | error e => simp [runOp, h]

/-- required_days is constant along any operation sequence. -/
theorem runOps_requiredDays_eq (ops : List HOp) (st : HabitState) :
    (runOps st ops).habit.requiredDays = st.habit.requiredDays := by
  induction ops generalizing st with
  | nil => rfl
  | cons op rest ih => rw [show runOps st (op :: rest) = runOps (runOp st op) rest from rfl,
      ih (runOp st op), runOp_requiredDays_eq st op]

/-- A check-in call preserves total_completions = current_day: a completed
check-in bumps both, a missed or rejected one bumps neither. -/
theorem runOp_total_eq_day (st : HabitState) (today : Int) (completed tiny : Bool)
    (note : Option String)
    (h : st.habit.totalCompletions = st.habit.currentDay) :
    (runOp st (HOp.checkIn today completed tiny note)).habit.totalCompletions =
    (runOp st (HOp.checkIn today completed tiny note)).habit.currentDay := by
  cases hdup : (st.checkins.any fun x =>
      x.habitId == st.habit.id && pyEq x.checkInDate (.isoStr today)) with
  | true =>
    simp [runOp, create_check_in_dup st today completed tiny note hdup, h]
  | false =>
    cases completed with
    | true =>
      simp [runOp, create_check_in_completed st today tiny note hdup, h]
    | false =>
      simp [runOp, create_check_in_missed st today tiny note hdup, h]

/-- total_completions = current_day is preserved along check-in sequences. -/
theorem runOps_total_eq_day (l : List (Int × Bool)) (st : HabitState)
    (h : st.habit.totalCompletions = st.habit.currentDay) :
    (runOps st (checkInOps l)).habit.totalCompletions =
    (runOps st (checkInOps l)).habit.currentDay := by
  induction l generalizing st with
  | nil => exact h
  | cons a rest ih =>
    exact ih (runOp st (HOp.checkIn a.1 a.2 false none))
      (runOp_total_eq_day st a.1 a.2 false none h)

/-- required_days is at least 40 for every frequency. -/
theorem calculate_required_days_ge (f : FrequencySpec) :
    40 ≤ calculate_required_days f := by
  cases f with
  | daily => exact Nat.le_refl 40
  | weekly => simp [calculate_required_days]
  | custom td =>
    simp only [calculate_required_days]
    split_ifs <;> omega

/-- Claim C4: a habit created by create_habit and mutated only by check-in
calls always has total_completions = current_day, so its consistency ratio
is 1 whenever current_day > 0, and in particular the 80 percent consistency
condition of automatic graduation cannot fail once current_day has reached
required_days. -/
theorem C4_consistency_always_one (c : HabitCreate) (id userId : String) (t0 : Int)
    (l : List (Int × Bool)) :
    (runOps (freshState c id userId t0) (checkInOps l)).habit.totalCompletions
      = (runOps (freshState c id userId t0) (checkInOps l)).habit.currentDay
  ∧ (0 < (runOps (freshState c id userId t0) (checkInOps l)).habit.currentDay →
      consistencyOf (runOps (freshState c id userId t0) (checkInOps l)).habit = 1)
  ∧ ((runOps (freshState c id userId t0) (checkInOps l)).habit.requiredDays ≤
        (runOps (freshState c id userId t0) (checkInOps l)).habit.currentDay →
      ¬ (consistencyOf (runOps (freshState c id userId t0) (checkInOps l)).habit
          < (0.8 : ℚ))) := by
  have htd : (runOps (freshState c id userId t0) (checkInOps l)).habit.totalCompletions
      = (runOps (freshState c id userId t0) (checkInOps l)).habit.currentDay :=
    runOps_total_eq_day l (freshState c id userId t0) rfl
  have hone : 0 < (runOps (freshState c id userId t0) (checkInOps l)).habit.currentDay →
      consistencyOf (runOps (freshState c id userId t0) (checkInOps l)).habit = 1 := by
    intro hpos
    unfold consistencyOf
    rw [htd, max_eq_left hpos]
    exact div_self (by exact_mod_cast Nat.pos_iff_ne_zero.mp hpos)
  refine ⟨htd, hone, ?_⟩
  intro hreq
  have hge : 40 ≤ (runOps (freshState c id userId t0) (checkInOps l)).habit.requiredDays := by
    rw [runOps_requiredDays_eq]
    exact calculate_required_days_ge c.frequency
  rw [hone (by omega)]
  norm_num

/-- Witness for C4 after a single completed check-in. -/
theorem C4_consistency_always_one_witness :
    (runOps (freshState habitCreateW "h1" "u1" 0) (checkInOps [(3, true)])).habit.totalCompletions
      = (runOps (freshState habitCreateW "h1" "u1" 0) (checkInOps [(3, true)])).habit.currentDay
  ∧ consistencyOf (runOps (freshState habitCreateW "h1" "u1" 0) (checkInOps [(3, true)])).habit = 1 :=
  ⟨(C4_consistency_always_one habitCreateW "h1" "u1" 0 [(3, true)]).1,
   (C4_consistency_always_one habitCreateW "h1" "u1" 0 [(3, true)]).2.1 (by decide)⟩

/-- One operation preserves the fact that a graduated habit carries a
graduation date. -/
theorem runOp_graduation_invariant (st : HabitState) (op : HOp)
    (h : st.habit.lane = HabitLane.iAm → st.habit.graduationDate ≠ none) :
    (runOp st op).habit.lane = HabitLane.iAm →
    (runOp st op).habit.graduationDate ≠ none := by
  cases op with
  | checkIn today completed tiny note =>
    cases hc : create_check_in st today completed tiny note with
    | ok r =>
      obtain ⟨_, _, _, hlane, _, hgd⟩ :=
        create_check_in_ok_shape st today completed tiny note r.1 r.2 hc
      simpa [runOp, hc, hlane, hgd] using h
    | error e => simpa [runOp, hc] using h
  | update u now =>
    obtain ⟨hlane, _, _, _, _, _, _, hgd, _⟩ := update_habit_fields st.habit u now
    simpa [runOp, hlane, hgd] using h
  | graduate manual now =>
    cases hg : graduate_habit st manual now with
    | ok st2 =>
      obtain ⟨_, rfl⟩ := graduate_habit_ok_state st manual now st2 hg
      simp [runOp, hg]
    | error e => simpa [runOp, hg] using h

/-- The graduation-date invariant holds along any operation sequence. -/
theorem runOps_graduation_invariant (ops : List HOp) (st : HabitState)
    (h : st.habit.lane = HabitLane.iAm → st.habit.graduationDate ≠ none) :
    (runOps st ops).habit.lane = HabitLane.iAm →
    (runOps st ops).habit.graduationDate ≠ none := by
  induction ops generalizing st with
  | nil => exact h
  | cons op rest ih => exact ih (runOp st op) (runOp_graduation_invariant st op h)

/-- Any lane change performed by an operation is a successful graduation
from becoming to i_am. -/
theorem runOp_lane_change (st : HabitState) (op : HOp)
    (h : (runOp st op).habit.lane ≠ st.habit.lane) :
    st.habit.lane = HabitLane.becoming
  ∧ (runOp st op).habit.lane = HabitLane.iAm
  ∧ ∃ m2 t2, op = HOp.graduate m2 t2 ∧ graduate_habit st m2 t2 = .ok (runOp st op) := by
  cases op with
  | checkIn today completed tiny note =>
    exfalso
    apply h
    cases hc : create_check_in st today completed tiny note with
    | ok r =>
      obtain ⟨_, _, _, hlane, _, _⟩ :=
        create_check_in_ok_shape st today completed tiny note r.1 r.2 hc
      simpa [runOp, hc] using hlane
    | error e => simp [runOp, hc]
  | update u now =>
    exfalso
    apply h
    simpa [runOp] using (update_habit_fields st.habit u now).1
  | graduate manual now =>
    cases hg : graduate_habit st manual now with
    | error e =>
      exfalso
      apply h
      simp [runOp, hg]
    | ok st2 =>
      obtain ⟨hno, rfl⟩ := graduate_habit_ok_state st manual now st2 hg
      have hbec : st.habit.lane = HabitLane.becoming := by
        cases hl : st.habit.lane with
        | becoming => rfl
        | iAm => exact absurd hl hno
      refine ⟨hbec, by simp [runOp, hg], manual, now, rfl, ?_⟩
      rw [hg]
      simp [runOp, hg]

/-- Graduating an i_am habit fails with the already-graduated error and
changes nothing. -/
theorem graduate_habit_terminal (st : HabitState) (m : Bool) (t : Int)
    (h : st.habit.lane = HabitLane.iAm) :
    graduate_habit st m t = .error .alreadyGraduated
  ∧ runOp st (HOp.graduate m t) = st := by
  have herr : graduate_habit st m t = .error .alreadyGraduated := by
    simp [graduate_habit, h]
  exact ⟨herr, by simp [runOp, herr]⟩

/-- Claim C7: across any operation sequence from creation, a habit in the
i_am lane carries a graduation date; any lane change is a successful
graduation from becoming to i_am; and graduating an i_am habit fails with
the already-graduated error leaving the habit unchanged — so the lane moves
becoming to i_am at most once and never back. -/
theorem C7_lane_transitions (c : HabitCreate) (id userId : String) (t0 : Int)
    (ops : List HOp) (st : HabitState) (op : HOp) (m : Bool) (t : Int) :
    ((runOps (freshState c id userId t0) ops).habit.lane = HabitLane.iAm →
      (runOps (freshState c id userId t0) ops).habit.graduationDate ≠ none)
  ∧ ((runOp st op).habit.lane ≠ st.habit.lane →
      st.habit.lane = HabitLane.becoming
    ∧ (runOp st op).habit.lane = HabitLane.iAm
    ∧ ∃ m2 t2, op = HOp.graduate m2 t2 ∧ graduate_habit st m2 t2 = .ok (runOp st op))
  ∧ (st.habit.lane = HabitLane.iAm →
      graduate_habit st m t = .error .alreadyGraduated
    ∧ runOp st (HOp.graduate m t) = st) :=
  ⟨runOps_graduation_invariant ops (freshState c id userId t0)
      (fun hx => by simp [freshState, create_habit] at hx),
   runOp_lane_change st op,
   graduate_habit_terminal st m t⟩

/-- Fixture for C7: 21 completed daily check-ins followed by a manual
graduation. -/
def c7Ops : List HOp :=
  checkInOps ((List.range 21).map fun i => ((i : Int), true)) ++ [HOp.graduate true 100]

/-- Fixture for C7: the resulting graduated store. -/
def c7St : HabitState := runOps (freshState habitCreateW "h3" "u1" 0) c7Ops

/-- Witness for C7: the graduated fixture carries a graduation date and a
further graduation attempt fails without changing it. -/
theorem C7_lane_transitions_witness :
    c7St.habit.graduationDate ≠ none
  ∧ graduate_habit c7St true 101 = .error .alreadyGraduated
  ∧ runOp c7St (HOp.graduate true 101) = c7St := by
  obtain ⟨h1, _, h3⟩ := C7_lane_transitions habitCreateW "h3" "u1" 0 c7Ops c7St
    (HOp.update ⟨none, none, none⟩ 0) true 101
  obtain ⟨h3a, h3b⟩ := h3 (by decide)
  exact ⟨h1 (by decide), h3a, h3b⟩

/-- Claim C9: complete_challenge_day on a non-active challenge fails with
the not-active error; on an already completed day it fails with the
duplicate-day error; otherwise it appends the day and adds
floor(10 * (1 + 0.1 * n)) XP where n counts completed days after the add,
and when n reaches 7 it marks the challenge completed, sets completed_at,
adds the 100 XP bonus and inserts exactly one milestone record. -/
theorem C9_challenge_day (ch : Challenge) (day now : Int) :
    (ch.status ≠ "active" → complete_challenge_day ch day now = .error .notActive)
  ∧ (ch.status = "active" → day ∈ ch.completedDays →
      complete_challenge_day ch day now = .error .dayAlreadyCompleted)
  ∧ (ch.status = "active" → day ∉ ch.completedDays →
      ∃ ch2 ms xp, complete_challenge_day ch day now = .ok (ch2, ms, xp)
        ∧ ch2.completedDays = ch.completedDays ++ [day]
        ∧ (ch.completedDays.length + 1 < 7 →
            ch2.xpEarned = ch.xpEarned +
              ⌊(10 : ℚ) * (1 + (0.1 : ℚ) * ((ch.completedDays.length + 1 : Nat) : ℚ))⌋
          ∧ ch2.status = "active"
          ∧ ch2.completedAt = ch.completedAt
          ∧ ms = [])
        ∧ (7 ≤ ch.completedDays.length + 1 →
            ch2.xpEarned = ch.xpEarned +
              ⌊(10 : ℚ) * (1 + (0.1 : ℚ) * ((ch.completedDays.length + 1 : Nat) : ℚ))⌋ + 100
          ∧ ch2.status = "completed"
          ∧ ch2.completedAt = some now
          ∧ ms.length = 1)) := by
  refine ⟨?_, ?_, ?_⟩
  · intro hs
    simp [complete_challenge_day, hs]
  · intro hs hmem
    simp [complete_challenge_day, hs, hmem]
  · intro hs hmem
    cases hres : complete_challenge_day ch day now with
    | error e =>
      exfalso
      simp [complete_challenge_day, hs, hmem] at hres
      split at hres <;> simp at hres
    | ok r =>
      obtain ⟨ch2, ms, xp⟩ := r
      refine ⟨ch2, ms, xp, rfl, ?_, ?_, ?_⟩ <;>
        by_cases h6 : 6 ≤ ch.completedDays.length
      · simp [complete_challenge_day, hs, hmem, h6] at hres
        obtain ⟨rfl, rfl, rfl⟩ := hres
        simp
      · simp [complete_challenge_day, hs, hmem, h6] at hres
        obtain ⟨rfl, rfl, rfl⟩ := hres
        simp
      · intro hlt
        omega
      · intro hlt
        simp [complete_challenge_day, hs, hmem, h6] at hres
        obtain ⟨rfl, rfl, rfl⟩ := hres
        refine ⟨?_, by simp [hs], rfl, rfl⟩
        push_cast
        simp
      · intro hge
        simp [complete_challenge_day, hs, hmem, h6] at hres
        obtain ⟨rfl, rfl, rfl⟩ := hres
        refine ⟨?_, rfl, rfl, rfl⟩
        push_cast
        simp
      · intro hge
        omega

/-- Fixture for C9: an active challenge with six completed days. -/
def chW : Challenge :=
  { id := 1
    userId := "u1"
    qualityTargetId := 1
    title := "Focus"
    description := none
    difficulty := "beginner"
    status := "active"
    completedDays := [1, 2, 3, 4, 5, 6]
    currentDay := 6
    xpEarned := 50
    completedAt := none }

/-- Witness for C9: completing day 7 of the fixture challenge. -/
theorem C9_challenge_day_witness :
    ∃ ch2 ms xp, complete_challenge_day chW 7 99 = .ok (ch2, ms, xp)
      ∧ ch2.completedDays = chW.completedDays ++ [7]
      ∧ (chW.completedDays.length + 1 < 7 →
          ch2.xpEarned = chW.xpEarned +
            ⌊(10 : ℚ) * (1 + (0.1 : ℚ) * ((chW.completedDays.length + 1 : Nat) : ℚ))⌋
        ∧ ch2.status = "active"
        ∧ ch2.completedAt = chW.completedAt
        ∧ ms = [])
      ∧ (7 ≤ chW.completedDays.length + 1 →
          ch2.xpEarned = chW.xpEarned +
            ⌊(10 : ℚ) * (1 + (0.1 : ℚ) * ((chW.completedDays.length + 1 : Nat) : ℚ))⌋ + 100
        ∧ ch2.status = "completed"
        ∧ ch2.completedAt = some 99
        ∧ ms.length = 1) :=
  (C9_challenge_day chW 7 99).2.2 rfl (by decide)

end Klarity
